import Mathlib

/-!
Shallow embedding of `scripts/export_sentence_transformer.py` (the veccy
export-and-verify pipeline): the model registry `MODELS`, the verifier
`verify_onnx_model`, the exporter `export_model`, and the CLI entry `main`.

External collaborators (the ONNX conversion engine, the tokenizer library,
the inference engine and the filesystem) are modelled as explicit
parameters: an `ExtEnv` value records the outcome of each external call,
and a small filesystem state `FS` is threaded through the exporter so that
directory creation and file writes are visible in the result.
-/

/-- Registry entry: the value stored under each key of the `MODELS` dict
(fields `name`, `dims`, `max_len`, `params`, `description`, `category`). -/
structure ModelInfo where
  name : String
  dims : Int
  max_len : Int
  params : String
  description : String
  category : String
deriving Repr, DecidableEq, Inhabited

/-- The `MODELS` dict of the script, as an association list in the order the
Python source declares the keys (Python dicts preserve insertion order). -/
def MODELS : List (String × ModelInfo) :=
  [ ("all-MiniLM-L6-v2",
      { name := "sentence-transformers/all-MiniLM-L6-v2", dims := 384, max_len := 128,
        params := "22M", description := "General purpose - RECOMMENDED", category := "small" }),
    ("paraphrase-MiniLM-L3-v2",
      { name := "sentence-transformers/paraphrase-MiniLM-L3-v2", dims := 384, max_len := 128,
        params := "17M", description := "Fastest, good for real-time", category := "small" }),
    ("all-MiniLM-L12-v2",
      { name := "sentence-transformers/all-MiniLM-L12-v2", dims := 384, max_len := 128,
        params := "33M", description := "Balanced accuracy/speed", category := "small" }),
    ("all-mpnet-base-v2",
      { name := "sentence-transformers/all-mpnet-base-v2", dims := 768, max_len := 384,
        params := "110M", description := "Highest quality", category := "large" }),
    ("multi-qa-mpnet-base-dot-v1",
      { name := "sentence-transformers/multi-qa-mpnet-base-dot-v1", dims := 768, max_len := 512,
        params := "110M", description := "Question answering", category := "large" }),
    ("paraphrase-multilingual-MiniLM-L12-v2",
      { name := "sentence-transformers/paraphrase-multilingual-MiniLM-L12-v2", dims := 384,
        max_len := 128, params := "118M", description := "50+ languages",
        category := "multilingual" }),
    ("distiluse-base-multilingual-cased-v2",
      { name := "sentence-transformers/distiluse-base-multilingual-cased-v2", dims := 512,
        max_len := 128, params := "135M", description := "15 languages, fast",
        category := "multilingual" }),
    ("all-distilroberta-v1",
      { name := "sentence-transformers/all-distilroberta-v1", dims := 768, max_len := 512,
        params := "82M", description := "RoBERTa-based", category := "specialized" }),
    ("msmarco-MiniLM-L6-cos-v5",
      { name := "sentence-transformers/msmarco-MiniLM-L6-cos-v5", dims := 384, max_len := 512,
        params := "22M", description := "Information retrieval", category := "specialized" }) ]

/-- `MODELS[key]` as a partial lookup (`model_key in MODELS` / `MODELS[model_key]`). -/
def lookup (key : String) : Option ModelInfo :=
  (MODELS.find? (fun p => p.1 == key)).map (fun p => p.2)

/-- One tensor descriptor as reported by the inference engine
(`inp.name`, `inp.shape`, `inp.type`); a `-1` in a shape marks a dynamic axis. -/
structure TensorDesc where
  name : String
  shape : List Int
  ty : String
deriving Repr, DecidableEq, Inhabited

/-- What `ort.InferenceSession` exposes of a loaded model: the declared
input and output tensor descriptors. -/
structure Session where
  inputs : List TensorDesc
  outputs : List TensorDesc
deriving Repr, DecidableEq, Inhabited

/-- The per-output dimension check of `verify_onnx_model` (source lines
168-173): only outputs of rank >= 2 are checked; the trailing dimension
`out.shape[-1]` matches when it equals `expected_dims` or is the dynamic
sentinel `-1`.  `none` means the output was not checked, `some b` records
match (`true`) or mismatch (`false`). -/
def checkOutput (expected : Int) (out : TensorDesc) : Option Bool :=
  if 2 ≤ out.shape.length then
    match out.shape.getLast? with
    | some d => some (d == expected || d == -1)
    | none => none
  else none

/-- Everything `verify_onnx_model` reports and returns: the input and output
descriptors it printed, the per-output dimension checks it printed, and the
boolean it returns to the caller. -/
structure VerifyOutcome where
  inputsListed : List TensorDesc
  outputsListed : List TensorDesc
  dimChecks : List (Option Bool)
  ok : Bool
deriving Repr, DecidableEq, Inhabited

/-- `verify_onnx_model(model_path, expected_dims)`: the `load` argument is
the outcome of `ort.InferenceSession(model_path, ...)` (`none` when the
constructor raises, e.g. on a missing or malformed file, landing in the
`except` branch that returns `False`).  On a successful load it prints every
input and output descriptor, runs the dimension check on each output, and
returns `True` regardless of the per-output check results. -/
def verify_onnx_model (load : Option Session) (expected_dims : Int) : VerifyOutcome :=
  match load with
  | none => { inputsListed := [], outputsListed := [], dimChecks := [], ok := false }
  | some s =>
    { inputsListed := s.inputs
      outputsListed := s.outputs
      dimChecks := s.outputs.map (checkOutput expected_dims)
      ok := true }

/-- `os.path.join` for the simple relative paths the script builds. -/
def pathJoin (a b : String) : String := a ++ "/" ++ b

/-- Filesystem state: the set of existing directories and the files on disk,
each file keyed by its directory and filename and carrying a size. -/
structure FS where
  dirs : List String
  files : List (String × String × Nat)
deriving Repr, DecidableEq, Inhabited

/-- `os.makedirs(d, exist_ok=True)`: creating an existing directory is not
an error and changes nothing. -/
def FS.makedirs (fs : FS) (d : String) : FS :=
  { fs with dirs := if d ∈ fs.dirs then fs.dirs else fs.dirs ++ [d] }

/-- Write one file into directory `d`, overwriting any previous file of the
same name there. -/
def FS.write (fs : FS) (d : String) (f : String × Nat) : FS :=
  { fs with files := fs.files.filter (fun e => !(e.1 == d && e.2.1 == f.1)) ++ [(d, f)] }

/-- Write a batch of files into directory `d` in order (one `save_pretrained`
call, which writes the files the external library chooses). -/
def FS.writeAll (fs : FS) (d : String) (ws : List (String × Nat)) : FS :=
  ws.foldl (fun acc f => acc.write d f) fs

/-- `os.listdir` with `os.path.getsize`: the (filename, size) entries of a
directory. -/
def FS.listdir (fs : FS) (d : String) : List (String × Nat) :=
  (fs.files.filter (fun e => e.1 == d)).map (fun e => e.2)

/-- Outcomes of the external calls `export_model` makes, fixed up front:
`mkdir` is `os.makedirs`, `convert` is
`ORTModelForFeatureExtraction.from_pretrained(..., export=True)`, `loadTok`
is `AutoTokenizer.from_pretrained`, `modelSave` and `tokSave` are the two
`save_pretrained` calls (on success, the (filename, size) entries each
writes), and `loadSession` is `ort.InferenceSession` as a function of the
path it is given.  An `Except.error` models the call raising. -/
structure ExtEnv where
  mkdir : Except String Unit
  convert : Except String Unit
  loadTok : Except String Unit
  modelSave : Except String (List (String × Nat))
  tokSave : Except String (List (String × Nat))
  loadSession : String → Option Session

/-- Everything `export_model` reports and returns: the returned success
flag, the diagnostic printed by the `except` branch (with
`traceShown` for `traceback.print_exc()`), the "Available models: ..."
listing printed on an unknown key, the verifier invocation
(artifact path and expected dims) and its outcome when `verify` ran, and
the file manifest printed on success. -/
structure ExportOutcome where
  success : Bool
  errorMsg : Option String
  traceShown : Bool
  availableKeysShown : Option String
  verifyCall : Option (String × Int)
  verifyOutcome : Option VerifyOutcome
  manifest : Option (List (String × Nat))
deriving Repr, DecidableEq, Inhabited

/-- The failed `ExportResult` produced by the `except Exception` branch:
prints "Export failed: ..." plus a traceback and returns `False`. -/
def exportFailed (e : String) : ExportOutcome :=
  { success := false, errorMsg := some ("Export failed: " ++ e), traceShown := true,
    availableKeysShown := none, verifyCall := none, verifyOutcome := none, manifest := none }

/-- The message printed when the key is not in the registry:
`"Available models: " + ", ".join(MODELS.keys())`. -/
def availableModelsMsg : String :=
  "Available models: " ++ String.intercalate ", " (MODELS.map (fun p => p.1))

/-- `export_model(model_key, output_base_dir, verify)`.  Mirrors the source:
reject unknown keys before any filesystem access; then, inside the `try`
block, create the output directory, convert the model, load the tokenizer,
save both, optionally verify `output_dir/model.onnx`, and list the output
directory for the manifest.  Any raising step lands in the `except` branch
(`exportFailed`).  Returns the outcome together with the filesystem state. -/
def export_model (env : ExtEnv) (fs : FS) (model_key : String)
    (output_base_dir : String) (verify : Bool) : ExportOutcome × FS :=
  match MODELS.find? (fun p => p.1 == model_key) with
  | none =>
    ({ success := false, errorMsg := some ("Unknown model " ++ model_key), traceShown := false,
       availableKeysShown := some availableModelsMsg, verifyCall := none,
       verifyOutcome := none, manifest := none }, fs)
  | some entry =>
    let info := entry.2
    let output_dir := pathJoin output_base_dir (model_key ++ "-onnx")
    match env.mkdir with
    | .error e => (exportFailed e, fs)
    | .ok _ =>
      let fs1 := fs.makedirs output_dir
      match env.convert with
      | .error e => (exportFailed e, fs1)
      | .ok _ =>
        match env.loadTok with
        | .error e => (exportFailed e, fs1)
        | .ok _ =>
          match env.modelSave with
          | .error e => (exportFailed e, fs1)
          | .ok mfiles =>
            let fs2 := fs1.writeAll output_dir mfiles
            match env.tokSave with
            | .error e => (exportFailed e, fs2)
            | .ok tfiles =>
              let fs3 := fs2.writeAll output_dir tfiles
              let model_path := pathJoin output_dir "model.onnx"
              ({ success := true, errorMsg := none, traceShown := false,
                 availableKeysShown := none,
                 verifyCall := if verify then some (model_path, info.dims) else none,
                 verifyOutcome :=
                   if verify then some (verify_onnx_model (env.loadSession model_path) info.dims)
                   else none,
                 manifest := some (fs3.listdir output_dir) }, fs3)

/-- The parsed command line (`args.model`, `args.list`, `args.output`,
`args.no_verify`); `model = none` for an absent positional argument. -/
structure Args where
  model : Option String
  list : Bool
  output : String
  no_verify : Bool
deriving Repr, DecidableEq

/-- Python truthiness of `args.model`: `not args.model` is true when the
argument is absent or the empty string. -/
def modelArgMissing : Option String → Bool
  | none => true
  | some s => s.isEmpty

/-- Everything `main` does: the exit code it returns to `sys.exit`, whether
it printed the model listing (`list_models()`), whether it printed the
parser help plus the missing-argument error, and the export outcome when an
export was attempted. -/
structure MainOutcome where
  exitCode : Nat
  listedModels : Bool
  usageShown : Bool
  exportOutcome : Option ExportOutcome
deriving Repr, DecidableEq

/-- `main()`: `--list` prints the listing and returns 0; a missing model
argument prints the help and an error and returns 1; otherwise it exports
with `verify = not args.no_verify` and returns 0 on success, 1 on failure. -/
def main_run (env : ExtEnv) (fs : FS) (args : Args) : MainOutcome × FS :=
  if args.list then
    ({ exitCode := 0, listedModels := true, usageShown := false, exportOutcome := none }, fs)
  else if modelArgMissing args.model then
    ({ exitCode := 1, listedModels := false, usageShown := true, exportOutcome := none }, fs)
  else
    match args.model with
    | none =>
      ({ exitCode := 1, listedModels := false, usageShown := true, exportOutcome := none }, fs)
    | some key =>
      let r := export_model env fs key args.output (!args.no_verify)
      ({ exitCode := if r.1.success then 0 else 1, listedModels := false, usageShown := false,
         exportOutcome := some r.1 }, r.2)

/-! ### Filesystem lemmas -/

/-- The size recorded by the last write of filename `n` in a write batch. -/
def lastWrite (ws : List (String × Nat)) (n : String) : Option Nat :=
  (ws.reverse.find? (fun w => w.1 == n)).map (fun w => w.2)

lemma find?_append_or {α : Type} (p : α → Bool) (l₁ l₂ : List α) :
    (l₁ ++ l₂).find? p = ((l₁.find? p).orElse (fun _ => l₂.find? p)) := by
  induction l₁ with
  | nil => simp
  | cons a l ih =>
    by_cases h : p a <;> simp [List.find?_cons, h, ih]

lemma lastWrite_cons_some (w : String × Nat) (ws : List (String × Nat)) (n : String) (v : Nat)
    (h : lastWrite ws n = some v) : lastWrite (w :: ws) n = some v := by
  unfold lastWrite at h ⊢
  rw [List.reverse_cons, find?_append_or]
  cases hf : ws.reverse.find? (fun x => x.1 == n) with
  | none => rw [hf] at h; simp at h
  | some x => rw [hf] at h; simpa [Option.orElse] using h

lemma lastWrite_cons_none (w : String × Nat) (ws : List (String × Nat)) (n : String)
    (h : lastWrite ws n = none) :
    lastWrite (w :: ws) n = if w.1 = n then some w.2 else none := by
  unfold lastWrite at h ⊢
  rw [List.reverse_cons, find?_append_or]
  cases hf : ws.reverse.find? (fun x => x.1 == n) with
  | some x => rw [hf] at h; simp at h
  | none =>
    simp only [Option.orElse]
    by_cases hw : w.1 = n
    · simp [List.find?_cons, hw]
    · simp [List.find?_cons, hw]

lemma listdir_makedirs (fs : FS) (d d' : String) :
    (fs.makedirs d').listdir d = fs.listdir d := rfl

lemma listdir_write (fs : FS) (d : String) (w : String × Nat) :
    (fs.write d w).listdir d =
      (fs.listdir d).filter (fun f => !(f.1 == w.1)) ++ [w] := by
  simp only [FS.write, FS.listdir, List.filter_append, List.filter_map, List.filter_filter,
    List.map_append]
  congr 1
  · apply congrArg
    apply List.filter_congr
    intro e _
    cases h : (e.1 == d) <;> simp [h]
  · simp

lemma mem_listdir_write (fs : FS) (d : String) (w : String × Nat) (n : String) (s : Nat) :
    (n, s) ∈ (fs.write d w).listdir d ↔
      ((n, s) = w ∨ ((n, s) ∈ fs.listdir d ∧ n ≠ w.1)) := by
  rw [listdir_write]
  simp [List.mem_append, List.mem_filter, or_comm]

lemma mem_listdir_writeAll (fs : FS) (d : String) (ws : List (String × Nat))
    (n : String) (s : Nat) :
    (n, s) ∈ (fs.writeAll d ws).listdir d ↔
      (lastWrite ws n = some s ∨ (lastWrite ws n = none ∧ (n, s) ∈ fs.listdir d)) := by
  induction ws generalizing fs with
  | nil => simp [FS.writeAll, lastWrite]
  | cons w ws ih =>
    have hstep : fs.writeAll d (w :: ws) = (fs.write d w).writeAll d ws := rfl
    rw [hstep, ih]
    cases hlw : lastWrite ws n with
    | some v =>
      rw [lastWrite_cons_some w ws n v hlw]
      simp
    | none =>
      rw [lastWrite_cons_none w ws n hlw, mem_listdir_write]
      by_cases hw : w.1 = n
      · simp [hw, Prod.ext_iff, eq_comm]
      · have hn : ¬n = w.1 := fun h => hw h.symm
        simp [hw, hn, Prod.ext_iff, eq_comm]

lemma writeAll_append (fs : FS) (d : String) (m t : List (String × Nat)) :
    (fs.writeAll d m).writeAll d t = fs.writeAll d (m ++ t) := by
  simp [FS.writeAll, List.foldl_append]

lemma files_write_subset (fs : FS) (d : String) (w : String × Nat)
    (e : String × String × Nat) (he : e ∈ (fs.write d w).files) :
    e ∈ fs.files ∨ e.1 = d := by
  simp only [FS.write, List.mem_append, List.mem_filter, List.mem_singleton] at he
  rcases he with ⟨h, _⟩ | h
  · exact Or.inl h
  · exact Or.inr (by rw [h])

lemma files_writeAll_subset (fs : FS) (d : String) (ws : List (String × Nat))
    (e : String × String × Nat) (he : e ∈ (fs.writeAll d ws).files) :
    e ∈ fs.files ∨ e.1 = d := by
  induction ws generalizing fs with
  | nil => exact Or.inl he
  | cons w ws ih =>
    have hstep : fs.writeAll d (w :: ws) = (fs.write d w).writeAll d ws := rfl
    rw [hstep] at he
    rcases ih (fs.write d w) he with h | h
    · exact files_write_subset fs d w e h
    · exact Or.inr h

lemma dirs_write (fs : FS) (d : String) (w : String × Nat) :
    (fs.write d w).dirs = fs.dirs := rfl

lemma dirs_writeAll (fs : FS) (d : String) (ws : List (String × Nat)) :
    (fs.writeAll d ws).dirs = fs.dirs := by
  induction ws generalizing fs with
  | nil => rfl
  | cons w ws ih =>
    have hstep : fs.writeAll d (w :: ws) = (fs.write d w).writeAll d ws := rfl
    rw [hstep, ih, dirs_write]

lemma mem_dirs_makedirs (fs : FS) (d x : String) (hx : x ∈ (fs.makedirs d).dirs) :
    x ∈ fs.dirs ∨ x = d := by
  simp only [FS.makedirs] at hx
  by_cases h : d ∈ fs.dirs
  · rw [if_pos h] at hx; exact Or.inl hx
  · rw [if_neg h] at hx
    rcases List.mem_append.mp hx with h1 | h1
    · exact Or.inl h1
    · exact Or.inr (List.mem_singleton.mp h1)

/-! ### Claim theorems -/

/-- C1: for every declared output of a loaded artifact, the verifier checks
exactly those outputs of rank >= 2; a trailing dimension equal to
`expected_dims` matches, the `-1` dynamic sentinel matches, any other value
is a mismatch recorded for that output, and the enumeration covers every
output (one recorded check per declared output, so a mismatch does not stop
the remaining outputs from being processed); outputs of rank < 2 are not
checked. -/
theorem verifier_dim_policy (s : Session) (expected : Int) :
    ((verify_onnx_model (some s) expected).dimChecks).length = s.outputs.length ∧
    ∀ i, ∀ hi : i < s.outputs.length,
      ((s.outputs.get ⟨i, hi⟩).shape.length < 2 →
          (verify_onnx_model (some s) expected).dimChecks.getD i none = none) ∧
      (∀ d, 2 ≤ (s.outputs.get ⟨i, hi⟩).shape.length →
          (s.outputs.get ⟨i, hi⟩).shape.getLast? = some d →
          ((d = expected ∨ d = -1 →
            (verify_onnx_model (some s) expected).dimChecks.getD i none = some true) ∧
           (d ≠ expected → d ≠ -1 →
            (verify_onnx_model (some s) expected).dimChecks.getD i none = some false))) := by
  constructor
  · simp [verify_onnx_model]
  · intro i hi
    have hD : (verify_onnx_model (some s) expected).dimChecks.getD i none
        = checkOutput expected (s.outputs.get ⟨i, hi⟩) := by
      simp only [verify_onnx_model]
      rw [List.getD_eq_getElem?_getD, List.getElem?_map, List.getElem?_eq_getElem hi]
      rfl
    rw [hD]
    constructor
    · intro hlt
      unfold checkOutput
      rw [if_neg (by omega)]
    · intro d hge hlast
      unfold checkOutput
      rw [if_pos hge, hlast]
      constructor
      · rintro (h | h) <;> simp [h]
      · intro h1 h2
        simp [h1, h2]

-- Witness for C1 at a session with one rank-2 output of trailing dimension 7.
theorem verifier_dim_policy_witness :
    (verify_onnx_model (some ⟨[], [⟨"emb", [1, 7], "f"⟩]⟩) 384).dimChecks.getD 0 none
      = some false := by
  have h := (verifier_dim_policy ⟨[], [⟨"emb", [1, 7], "f"⟩]⟩ 384).2 0 (by decide)
  exact (h.2 7 (by decide) (by decide)).2 (by decide) (by decide)

/-- C3 (counterexample): at a loadable artifact whose only output has
trailing dimension 5 against expected 384, the boolean
`verify_onnx_model` returns to the caller is `true` even though no output
matches — so the returned value is not a derived `dimension_match` that is
true exactly when some output matches. -/
theorem verifier_no_returned_dimension_match :
    ¬ ((verify_onnx_model
          (some ⟨[], [⟨"last_hidden_state", [1, 5], "tensor(float)"⟩]⟩) 384).ok = true
        ↔ ∃ o ∈ (verify_onnx_model
          (some ⟨[], [⟨"last_hidden_state", [1, 5], "tensor(float)"⟩]⟩) 384).outputsListed,
            checkOutput 384 o = some true) := by
  decide

/-- C3 (amended): the verifier prints per-output match/mismatch diagnostics,
but the only boolean it returns to the caller records load success: it is
`true` exactly when the artifact loaded, independent of every dimension
comparison; no derived `dimension_match` boolean is part of the returned
value. -/
theorem verifier_ok_iff_load_succeeded (load : Option Session) (expected : Int) :
    (verify_onnx_model load expected).ok = load.isSome := by
  cases load <;> rfl

/-- C8: every registry key is unique, and every spec the registry lookup can
return has strictly positive `dims` and `max_len` (the lookup itself is a
pure function of the static `MODELS` table). -/
theorem registry_invariants :
    ((MODELS.map (fun p => p.1)).Nodup) ∧
    (∀ p ∈ MODELS, 0 < p.2.dims ∧ 0 < p.2.max_len) ∧
    (∀ k spec, lookup k = some spec → 0 < spec.dims ∧ 0 < spec.max_len) := by
  refine ⟨by decide, by decide, ?_⟩
  intro k spec h
  unfold lookup at h
  cases hf : MODELS.find? (fun p => p.1 == k) with
  | none => rw [hf] at h; exact absurd h (by simp)
  | some p =>
    rw [hf] at h
    have hp := List.mem_of_find?_eq_some hf
    have hpos := (by decide : ∀ p ∈ MODELS, 0 < p.2.dims ∧ 0 < p.2.max_len) p hp
    have hspec : p.2 = spec := by simpa using h
    rw [← hspec]
    exact hpos

-- The registry entry for "all-MiniLM-L6-v2", used to witness C8.
def wSpecMiniLM : ModelInfo :=
  { name := "sentence-transformers/all-MiniLM-L6-v2", dims := 384, max_len := 128,
    params := "22M", description := "General purpose - RECOMMENDED", category := "small" }

-- Witness for C8 at the key "all-MiniLM-L6-v2".
theorem registry_invariants_witness : 0 < wSpecMiniLM.dims ∧ 0 < wSpecMiniLM.max_len :=
  registry_invariants.2.2 "all-MiniLM-L6-v2" wSpecMiniLM (by decide)

/-- C10: whenever the `--list` flag is set, `main` prints the listing and
returns exit code 0, even when a model argument is also supplied: the model
argument is ignored, no export is attempted, and the filesystem is
untouched. -/
theorem list_flag_ignores_model (env : ExtEnv) (fs : FS) (k out : String) (nv : Bool) :
    (main_run env fs { model := some k, list := true, output := out, no_verify := nv }).1.exitCode
        = 0 ∧
    (main_run env fs
        { model := some k, list := true, output := out, no_verify := nv }).1.listedModels = true ∧
    (main_run env fs
        { model := some k, list := true, output := out, no_verify := nv }).1.exportOutcome
        = none ∧
    (main_run env fs { model := some k, list := true, output := out, no_verify := nv }).2 = fs :=
  ⟨rfl, rfl, rfl, rfl⟩

/-- `true` when an external call did not raise. -/
def isOkB {α : Type} : Except String α → Bool
  | .ok _ => true
  | .error _ => false

set_option maxRecDepth 4000 in
/-- C4: for a key absent from the registry the export fails before touching
the filesystem (the state is returned unchanged: no directory created, no
file written), and the failure output lists every valid registry key. -/
theorem unknown_model_no_fs_change (env : ExtEnv) (fs : FS) (key base : String) (v : Bool)
    (hk : lookup key = none) :
    (export_model env fs key base v).1.success = false ∧
    (export_model env fs key base v).2 = fs ∧
    (export_model env fs key base v).1.availableKeysShown = some availableModelsMsg ∧
    (∀ k ∈ MODELS.map (fun p => p.1), List.IsInfix k.data availableModelsMsg.data) := by
  have hf : MODELS.find? (fun p => p.1 == key) = none := by
    unfold lookup at hk
    cases hfind : MODELS.find? (fun p => p.1 == key) with
    | none => rfl
    | some p => rw [hfind] at hk; simp at hk
  refine ⟨by simp [export_model, hf], by simp [export_model, hf],
    by simp [export_model, hf], by decide⟩

/-- C2: with `verify = true` and the model and tokenizer files persisted,
the export returns success for every possible verification outcome — any
dimension mismatch and any load failure (the inference engine may return no
session at all) is recorded in the report but never fails the export. -/
theorem verification_never_gates_export (env : ExtEnv) (fs : FS) (key base : String)
    (entry : String × ModelInfo)
    (hk : MODELS.find? (fun p => p.1 == key) = some entry)
    (hmk : env.mkdir = .ok ()) (hcv : env.convert = .ok ()) (htk : env.loadTok = .ok ())
    (m : List (String × Nat)) (hms : env.modelSave = .ok m)
    (t : List (String × Nat)) (hts : env.tokSave = .ok t) :
    (export_model env fs key base true).1.success = true ∧
    (export_model env fs key base true).1.verifyOutcome =
      some (verify_onnx_model
        (env.loadSession (pathJoin (pathJoin base (key ++ "-onnx")) "model.onnx"))
        entry.2.dims) := by
  constructor <;> simp [export_model, hk, hmk, hcv, htk, hms, hts]

/-- C9: with `verify = true`, the exporter invokes the verifier on exactly
`output_dir/model.onnx` with the registry entry's `dims`: the filename is
the hard-coded literal "model.onnx", whatever filenames the external save
calls actually wrote (the theorem holds for every `m` and `t`). -/
theorem verify_invoked_on_fixed_artifact_path (env : ExtEnv) (fs : FS) (key base : String)
    (entry : String × ModelInfo)
    (hk : MODELS.find? (fun p => p.1 == key) = some entry)
    (hmk : env.mkdir = .ok ()) (hcv : env.convert = .ok ()) (htk : env.loadTok = .ok ())
    (m : List (String × Nat)) (hms : env.modelSave = .ok m)
    (t : List (String × Nat)) (hts : env.tokSave = .ok t) :
    (export_model env fs key base true).1.verifyCall =
      some (pathJoin (pathJoin base (key ++ "-onnx")) "model.onnx", entry.2.dims) := by
  simp [export_model, hk, hmk, hcv, htk, hms, hts]

/-- C6: whenever the directory-creation, conversion, tokenizer or save step
raises, the failure is caught inside `export_model`: the operation still
returns (a failed result carrying an "Export failed: ..." diagnostic and a
printed traceback), and `main` turns it into exit code 1. -/
theorem export_failures_caught (env : ExtEnv) (fs : FS) (key base : String) (v : Bool)
    (entry : String × ModelInfo)
    (hk : MODELS.find? (fun p => p.1 == key) = some entry)
    (hfail : isOkB env.mkdir = false ∨ isOkB env.convert = false ∨ isOkB env.loadTok = false ∨
      isOkB env.modelSave = false ∨ isOkB env.tokSave = false) :
    (export_model env fs key base v).1.success = false ∧
    (∃ msg, (export_model env fs key base v).1.errorMsg = some ("Export failed: " ++ msg)) ∧
    (export_model env fs key base v).1.traceShown = true ∧
    (main_run env fs
        { model := some key, list := false, output := base, no_verify := !v }).1.exitCode
      = 1 := by
  have hexp : (export_model env fs key base v).1.success = false ∧
      (∃ msg, (export_model env fs key base v).1.errorMsg = some ("Export failed: " ++ msg)) ∧
      (export_model env fs key base v).1.traceShown = true := by
    cases hmk : env.mkdir with
    | error e =>
      exact ⟨by simp [export_model, hk, hmk, exportFailed],
        ⟨e, by simp [export_model, hk, hmk, exportFailed]⟩,
        by simp [export_model, hk, hmk, exportFailed]⟩
    | ok u =>
      cases hcv : env.convert with
      | error e =>
        exact ⟨by simp [export_model, hk, hmk, hcv, exportFailed],
          ⟨e, by simp [export_model, hk, hmk, hcv, exportFailed]⟩,
          by simp [export_model, hk, hmk, hcv, exportFailed]⟩
      | ok u2 =>
        cases htk : env.loadTok with
        | error e =>
          exact ⟨by simp [export_model, hk, hmk, hcv, htk, exportFailed],
            ⟨e, by simp [export_model, hk, hmk, hcv, htk, exportFailed]⟩,
            by simp [export_model, hk, hmk, hcv, htk, exportFailed]⟩
        | ok u3 =>
          cases hms : env.modelSave with
          | error e =>
            exact ⟨by simp [export_model, hk, hmk, hcv, htk, hms, exportFailed],
              ⟨e, by simp [export_model, hk, hmk, hcv, htk, hms, exportFailed]⟩,
              by simp [export_model, hk, hmk, hcv, htk, hms, exportFailed]⟩
          | ok m =>
            cases hts : env.tokSave with
            | error e =>
              exact ⟨by simp [export_model, hk, hmk, hcv, htk, hms, hts, exportFailed],
                ⟨e, by simp [export_model, hk, hmk, hcv, htk, hms, hts, exportFailed]⟩,
                by simp [export_model, hk, hmk, hcv, htk, hms, hts, exportFailed]⟩
            | ok t =>
              rw [hmk, hcv, htk, hms, hts] at hfail
              simp [isOkB] at hfail
  refine ⟨hexp.1, hexp.2.1, hexp.2.2, ?_⟩
  by_cases hke : modelArgMissing (some key) = true
  · simp [main_run, hke]
  · simp [main_run, hke, Bool.not_not, hexp.1]

/-- C5: a successful export writes only under `base/(key ++ "-onnx")` (every
new file and every new directory is that one), succeeds again when re-run
with the same key and base directory, and the re-run's file manifest
contains every entry of the first run's manifest. -/
theorem export_dir_and_idempotent_rerun (env : ExtEnv) (fs : FS) (key base : String) (v : Bool)
    (entry : String × ModelInfo)
    (hk : MODELS.find? (fun p => p.1 == key) = some entry)
    (hmk : env.mkdir = .ok ()) (hcv : env.convert = .ok ()) (htk : env.loadTok = .ok ())
    (m : List (String × Nat)) (hms : env.modelSave = .ok m)
    (t : List (String × Nat)) (hts : env.tokSave = .ok t) :
    (export_model env fs key base v).1.success = true ∧
    (export_model env (export_model env fs key base v).2 key base v).1.success = true ∧
    (∀ e ∈ (export_model env fs key base v).2.files,
        e ∈ fs.files ∨ e.1 = pathJoin base (key ++ "-onnx")) ∧
    (∀ x ∈ (export_model env fs key base v).2.dirs,
        x ∈ fs.dirs ∨ x = pathJoin base (key ++ "-onnx")) ∧
    (∀ f ∈ ((export_model env fs key base v).1.manifest).getD [],
        f ∈ ((export_model env (export_model env fs key base v).2 key base v).1.manifest).getD
          []) := by
  have hsucc : ∀ F : FS, (export_model env F key base v).1.success = true := by
    intro F; simp [export_model, hk, hmk, hcv, htk, hms, hts]
  have hfs : ∀ F : FS, (export_model env F key base v).2 =
      ((F.makedirs (pathJoin base (key ++ "-onnx"))).writeAll (pathJoin base (key ++ "-onnx"))
        m).writeAll (pathJoin base (key ++ "-onnx")) t := by
    intro F; simp [export_model, hk, hmk, hcv, htk, hms, hts]
  have hman : ∀ F : FS, (export_model env F key base v).1.manifest =
      some ((((F.makedirs (pathJoin base (key ++ "-onnx"))).writeAll
        (pathJoin base (key ++ "-onnx")) m).writeAll (pathJoin base (key ++ "-onnx"))
          t).listdir (pathJoin base (key ++ "-onnx"))) := by
    intro F; simp [export_model, hk, hmk, hcv, htk, hms, hts]
  refine ⟨hsucc fs, hsucc _, ?_, ?_, ?_⟩
  · intro e he
    rw [hfs fs, writeAll_append] at he
    rcases files_writeAll_subset _ _ _ e he with h | h
    · exact Or.inl h
    · exact Or.inr h
  · intro x hx
    rw [hfs fs, dirs_writeAll, dirs_writeAll] at hx
    exact mem_dirs_makedirs fs _ x hx
  · intro f hf
    obtain ⟨n, s⟩ := f
    rw [hman fs] at hf
    simp only [Option.getD_some] at hf
    rw [writeAll_append, mem_listdir_writeAll, listdir_makedirs] at hf
    rw [hman ((export_model env fs key base v).2)]
    simp only [Option.getD_some]
    rw [writeAll_append, mem_listdir_writeAll, listdir_makedirs]
    rcases hf with h | ⟨hn, hmem⟩
    · exact Or.inl h
    · refine Or.inr ⟨hn, ?_⟩
      rw [hfs fs, writeAll_append, mem_listdir_writeAll, listdir_makedirs]
      exact Or.inr ⟨hn, hmem⟩

/-- C7: `main` returns 0 on a `--list` invocation, 1 (with the usage text
printed) when the model argument is missing and `--list` is absent, and on
an export attempt it maps the export's success flag to 0 and its failure
to 1. -/
theorem cli_exit_codes (env : ExtEnv) (fs : FS) (args : Args) :
    (args.list = true → (main_run env fs args).1.exitCode = 0) ∧
    (args.list = false → modelArgMissing args.model = true →
      (main_run env fs args).1.exitCode = 1 ∧ (main_run env fs args).1.usageShown = true) ∧
    (∀ key, args.list = false → args.model = some key → modelArgMissing args.model = false →
      ((export_model env fs key args.output (!args.no_verify)).1.success = true →
        (main_run env fs args).1.exitCode = 0) ∧
      ((export_model env fs key args.output (!args.no_verify)).1.success = false →
        (main_run env fs args).1.exitCode = 1)) := by
  refine ⟨?_, ?_, ?_⟩
  · intro hl; simp [main_run, hl]
  · intro hl hm
    constructor <;> simp [main_run, hl, hm]
  · intro key hl hm hmm
    rw [hm] at hmm
    constructor <;> intro hs <;> simp [main_run, hl, hm, hmm, hs]

/-! ### Witness data: concrete environments and filesystem states -/

/-- Files a successful model save writes, for witnesses. -/
def wFiles : List (String × Nat) := [("model.onnx", 90000000), ("config.json", 600)]

/-- Files a successful tokenizer save writes, for witnesses. -/
def wTokFiles : List (String × Nat) := [("tokenizer.json", 500)]

/-- An environment where every export step succeeds but the verification
load fails (the inference engine returns no session). -/
def wEnvOkLoadFail : ExtEnv :=
  { mkdir := .ok (), convert := .ok (), loadTok := .ok (),
    modelSave := .ok wFiles, tokSave := .ok wTokFiles,
    loadSession := fun _ => none }

/-- An environment where the conversion engine raises. -/
def wEnvConvFail : ExtEnv :=
  { mkdir := .ok (), convert := .error "unsupported architecture", loadTok := .ok (),
    modelSave := .ok [], tokSave := .ok [], loadSession := fun _ => none }

/-- An environment whose saves never write a file named "model.onnx". -/
def wEnvNoModelFile : ExtEnv :=
  { mkdir := .ok (), convert := .ok (), loadTok := .ok (),
    modelSave := .ok [("model_quantized.onnx", 123)], tokSave := .ok [],
    loadSession := fun _ => none }

/-- The empty filesystem. -/
def fs0 : FS := { dirs := [], files := [] }

-- Witness for C4 at the unknown key "nope".
theorem unknown_model_no_fs_change_witness :
    (export_model wEnvOkLoadFail fs0 "nope" "./models" true).1.success = false ∧
    (export_model wEnvOkLoadFail fs0 "nope" "./models" true).2 = fs0 ∧
    (export_model wEnvOkLoadFail fs0 "nope" "./models" true).1.availableKeysShown
      = some availableModelsMsg := by
  have h := unknown_model_no_fs_change wEnvOkLoadFail fs0 "nope" "./models" true (by decide)
  exact ⟨h.1, h.2.1, h.2.2.1⟩

-- Witness for C2: all steps persist, the verification load fails, and the
-- export still reports success.
theorem verification_never_gates_export_witness :
    (export_model wEnvOkLoadFail fs0 "all-MiniLM-L6-v2" "./models" true).1.success = true ∧
    (export_model wEnvOkLoadFail fs0 "all-MiniLM-L6-v2" "./models" true).1.verifyOutcome =
      some (verify_onnx_model
        (wEnvOkLoadFail.loadSession
          (pathJoin (pathJoin "./models" ("all-MiniLM-L6-v2" ++ "-onnx")) "model.onnx"))
        wSpecMiniLM.dims) :=
  verification_never_gates_export wEnvOkLoadFail fs0 "all-MiniLM-L6-v2" "./models"
    ("all-MiniLM-L6-v2", wSpecMiniLM) (by decide) rfl rfl rfl wFiles rfl wTokFiles rfl

-- Witness for C9: the verifier is pointed at "model.onnx" even though the
-- save step wrote no file of that name.
theorem verify_invoked_on_fixed_artifact_path_witness :
    (export_model wEnvNoModelFile fs0 "all-MiniLM-L6-v2" "./models" true).1.verifyCall =
      some (pathJoin (pathJoin "./models" ("all-MiniLM-L6-v2" ++ "-onnx")) "model.onnx",
        wSpecMiniLM.dims) :=
  verify_invoked_on_fixed_artifact_path wEnvNoModelFile fs0 "all-MiniLM-L6-v2" "./models"
    ("all-MiniLM-L6-v2", wSpecMiniLM) (by decide) rfl rfl rfl _ rfl _ rfl

-- Witness for C6 at a conversion-engine failure.
theorem export_failures_caught_witness :
    (export_model wEnvConvFail fs0 "all-MiniLM-L6-v2" "./models" true).1.success = false ∧
    (∃ msg, (export_model wEnvConvFail fs0 "all-MiniLM-L6-v2" "./models" true).1.errorMsg
        = some ("Export failed: " ++ msg)) ∧
    (export_model wEnvConvFail fs0 "all-MiniLM-L6-v2" "./models" true).1.traceShown = true ∧
    (main_run wEnvConvFail fs0
        { model := some "all-MiniLM-L6-v2", list := false, output := "./models",
          no_verify := !true }).1.exitCode = 1 :=
  export_failures_caught wEnvConvFail fs0 "all-MiniLM-L6-v2" "./models" true
    ("all-MiniLM-L6-v2", wSpecMiniLM) (by decide) (Or.inr (Or.inl rfl))

-- Witness for C5: the same export run twice from the empty filesystem
-- succeeds both times.
theorem export_dir_and_idempotent_rerun_witness :
    (export_model wEnvOkLoadFail fs0 "all-MiniLM-L6-v2" "./models" true).1.success = true ∧
    (export_model wEnvOkLoadFail
        (export_model wEnvOkLoadFail fs0 "all-MiniLM-L6-v2" "./models" true).2
        "all-MiniLM-L6-v2" "./models" true).1.success = true := by
  have h := export_dir_and_idempotent_rerun wEnvOkLoadFail fs0 "all-MiniLM-L6-v2" "./models"
    true ("all-MiniLM-L6-v2", wSpecMiniLM) (by decide) rfl rfl rfl wFiles rfl wTokFiles rfl
  exact ⟨h.1, h.2.1⟩

-- Witness for C7 at a plain `--list` invocation.
theorem cli_exit_codes_witness :
    (main_run wEnvOkLoadFail fs0
        { model := none, list := true, output := "./models", no_verify := false }).1.exitCode
      = 0 :=
  (cli_exit_codes wEnvOkLoadFail fs0
    { model := none, list := true, output := "./models", no_verify := false }).1 rfl

